import Mathlib

/-!
Verification of the Cross-Net Wallet extension's cross-context
request/approval protocol, shallowly embedded from
`public/background.js` and `public/injectScript.js`.
-/

namespace CrossNet

/-- `strStarts sub hay`: the character list `sub` is an initial segment of `hay`. -/
def strStarts : List Char → List Char → Bool
  | [], _ => true
  | _ :: _, [] => false
  | a :: as, b :: bs => a == b && strStarts as bs

/-- `strFind sub hay`: the character list `sub` occurs contiguously inside `hay`. -/
def strFind (sub : List Char) : List Char → Bool
  | [] => strStarts sub []
  | b :: t => strStarts sub (b :: t) || strFind sub t

/-- JS `haystack.includes(needle)`: substring containment, case sensitive. -/
def jsIncludes (hay sub : String) : Bool :=
  strFind sub.data hay.data

/-- JS falsiness of an optional string field: absent (`undefined`) and the
empty string are falsy, every other string is truthy. -/
def jsTruthyStr : Option String → Bool
  | none => false
  | some s => !(s == "")

/-- The value stored under an `error` key of a background response:
either a bare string (`{ error: 'Site not connected' }`) or an object
`{ error: { code, message } }`. -/
inductive ErrorPayload
  | str (s : String)
  | obj (code : Int) (message : String)
deriving Repr, DecidableEq

/-- A JS value passed to a promise `reject`: either an `Error` instance
(carrying only its `message` here) or a raw payload passed through
unwrapped, as in `reject(error)`. -/
inductive JsErrorVal
  | errorInst (message : String)
  | plainErr (e : ErrorPayload)
deriving Repr, DecidableEq

/-- JS `new Error(x)`: a string argument becomes the message; an object
argument is coerced to the string `"[object Object]"`. -/
def jsNewError : ErrorPayload → JsErrorVal
  | .str s => .errorInst s
  | .obj _ _ => .errorInst "[object Object]"

/-- JS `error.message || 'Unknown error'` as read in the content relay's
catch block: `Error` instances and plain `{code,message}` objects expose
their message; a raw string value has no `message` property. -/
def jsErrMessage : JsErrorVal → String
  | .errorInst m => m
  | .plainErr (.obj _ m) => m
  | .plainErr (.str _) => "Unknown error"

/-- The error-code mapping of the content relay's window-listener catch
block (injectScript.js content part): the code defaults to -32603 and is
upgraded only by case-sensitive substring checks on the message; the
caught error's own `code` property is never consulted. -/
def contentCatchCode (msg : String) : Int :=
  if jsIncludes msg "user rejected" then 4001
  else if jsIncludes msg "not connected" then 4100
  else if jsIncludes msg "chain ID" then 4901
  else -32603

/-- The `{code, message}` of the CROSSNET_RESPONSE error the page receives
when a content-relay handler promise rejects with `e`. -/
def pageErrorOfReject (e : JsErrorVal) : Int × String :=
  (contentCatchCode (jsErrMessage e), jsErrMessage e)

/-! ## Background (Approval Broker) data model, from `background.js` -/

/-- One record of `state.connectedSites`, as written by
`handleConnectResponse` (background.js:706-714). -/
structure ConnectedSite where
  origin : String
  accounts : List String
  chainId : String
  connected : Bool
  lastConnected : Nat
  permissions : List String
  timestamp : Nat
deriving Repr, DecidableEq

/-- One record of `state.customChains`, as written by
`handleAddChainResponse` (background.js:1006-1010). -/
structure CustomChain where
  chainId : Option String
  chainName : Option String
  rpcUrls : Option (List String)
  addedBy : String
  timestamp : Nat
deriving Repr, DecidableEq

/-- The background `state` object (background.js:202-212), restricted to
the fields the approval protocol reads or writes. -/
structure BgState where
  isUnlocked : Bool
  accounts : List String
  selectedChainId : Option String
  connectedSites : List (String × ConnectedSite)
  customChains : List (String × CustomChain)
deriving Repr, DecidableEq

/-- JS object-key lookup on an association list (`state.connectedSites[origin]`). -/
def keyGet {α : Type} (m : List (String × α)) (k : String) : Option α :=
  (m.find? (fun p => p.1 == k)).map Prod.snd

/-- JS object-key insertion/overwrite (`state.connectedSites[origin] = ...`). -/
def keySet {α : Type} (m : List (String × α)) (k : String) (v : α) : List (String × α) :=
  if (m.find? (fun p => p.1 == k)).isSome then
    m.map (fun p => if p.1 == k then (p.1, v) else p)
  else m ++ [(k, v)]

/-- `state.connectedSites[origin] && state.connectedSites[origin].connected`. -/
def siteConnected (st : BgState) (origin : String) : Bool :=
  match keyGet st.connectedSites origin with
  | some s => s.connected
  | none => false

/-- `if (state.connectedSites[origin]) state.connectedSites[origin].chainId = chainId`. -/
def sitesSetChainId (sites : List (String × ConnectedSite)) (origin chainId : String) :
    List (String × ConnectedSite) :=
  sites.map (fun p => if p.1 == origin then (p.1, { p.2 with chainId := chainId }) else p)

/-- The `pendingChainRequest` record stored by `handleSwitchChainRequest`. -/
structure PendingChainRequest where
  id : Nat
  origin : String
  chainId : String
  timestamp : Nat
deriving Repr, DecidableEq

/-- The `pendingAddChainRequest` record stored by `handleAddChainRequest`. -/
structure PendingAddChainRequest where
  id : Nat
  origin : String
  chainData : CustomChain
  timestamp : Nat
deriving Repr, DecidableEq

/-- Transaction payload fields consulted by `handleSendTransactionRequest`.
`none` models an absent (`undefined`) field. -/
structure EthTransaction where
  toAddr : Option String
  callData : Option String
  value : Option String
deriving Repr, DecidableEq

/-- The `pendingTransactionRequest` record stored by `handleSendTransactionRequest`. -/
structure PendingTxRequest where
  id : Nat
  origin : String
  transaction : EthTransaction
  chainId : Option String
  timestamp : Nat
deriving Repr, DecidableEq

/-- The `pendingConnectRequest` record stored by `proceedWithConnectionRequest`. -/
structure PendingConnectRequest where
  id : Nat
  origin : String
  timestamp : Nat
deriving Repr, DecidableEq

/-- The `pendingSignRequest` record stored by `handlePersonalSignRequest`. -/
structure PendingSignRequest where
  id : Nat
  origin : String
  msgData : String
  address : String
  timestamp : Nat
deriving Repr, DecidableEq

/-- The shapes a background handler passes to `sendResponse`. -/
inductive BgResponse
  | errResp (e : ErrorPayload)
  | waiting
  | chainIdOnly (chainId : String)
  | connectSuccess (accounts : List String) (chainId : String)
deriving Repr, DecidableEq

/-- The numeric error code carried by a background response, when any. -/
def responseErrorCode : BgResponse → Option Int
  | .errResp (.obj c _) => some c
  | _ => none

/-! ## Tabs, events and tab-directed messages -/

/-- Payloads carried by `WALLET_EVENT` messages and provider events. -/
inductive EventData
  | accountsList (accounts : List String)
  | chainStr (chainId : String)
  | connectInfo (chainId : String)
  | codeMessage (code : Int) (message : String)
deriving Repr, DecidableEq

/-- A message the background sends to a tab via `chrome.tabs.sendMessage`. -/
inductive TabMsg
  | walletEvent (eventName : String) (eventData : EventData)
  | connectResponse (requestId : Nat) (approved : Bool)
      (accounts : List String) (chainId : Option String) (error : Option ErrorPayload)
  | switchChainResponse (requestId : Nat) (approved : Bool)
      (chainId : Option String) (error : Option ErrorPayload)
  | addChainResponse (requestId : Nat) (approved : Bool) (error : Option ErrorPayload)
  | sendTransactionResponse (requestId : Nat) (approved : Bool)
      (result : Option String) (error : Option ErrorPayload)
deriving Repr, DecidableEq

/-- A browser tab: its id, its URL as the tabs API reports it, and the
`window.location.origin` of the page loaded in it. The origin is carried
for specification purposes only: the background code never reads it. -/
structure Tab where
  id : Nat
  url : Option String
  pageOrigin : String
deriving Repr, DecidableEq

/-- The tab filter used by every background broadcast:
`tab.url && tab.url.includes(origin)` — substring containment on the
full URL, not an origin comparison. -/
def tabMatches (t : Tab) (origin : String) : Bool :=
  match t.url with
  | some u => jsIncludes u origin
  | none => false

/-- `notifyConnectedSite` (background.js:342-362): queries all tabs and
sends a `WALLET_EVENT` to every tab whose URL contains `origin` as a
substring. No session or `connected` check happens here. -/
def notifyConnectedSite (tabs : List Tab) (origin eventName : String) (data : EventData) :
    List (Nat × TabMsg) :=
  (tabs.filter (fun t => tabMatches t origin)).map
    (fun t => (t.id, TabMsg.walletEvent eventName data))

/-! ## Background request handlers -/

/-- What a background request handler produces: the value passed to
`sendResponse`, the new content of its pending-request storage slot, and
the popup it opens (`openPopupForApproval` arguments), if any.
Storage writes are modeled as succeeding (`chrome.runtime.lastError` unset). -/
structure ReqOutcome (P : Type) where
  response : BgResponse
  pending : Option P
  popup : Option (String × Nat)
deriving Repr, DecidableEq

/-- `handleSwitchChainRequest` (background.js:796-841). Branches, in
source order: origin not connected → bare-string error response (no code);
requested chain already selected → respond `{chainId}`; otherwise store a
`pendingChainRequest`, open the approval popup, respond `{waiting:true}`. -/
def bg_handleSwitchChainRequest (st : BgState) (stor : Option PendingChainRequest)
    (chainId origin : String) (requestId now : Nat) : ReqOutcome PendingChainRequest :=
  if !(siteConnected st origin) then
    ⟨.errResp (.str "Site not connected"), stor, none⟩
  else if st.selectedChainId == some chainId then
    ⟨.chainIdOnly chainId, stor, none⟩
  else
    ⟨.waiting, some ⟨requestId, origin, chainId, now⟩, some ("switchChain", requestId)⟩

/-- `handleAddChainRequest` (background.js:929-974). Branches, in source
order: origin not connected → `{code:4100}`; missing/falsy `chainId`,
`chainName` or missing/empty `rpcUrls` → `{code:4200}`; otherwise store a
`pendingAddChainRequest`, open the popup and respond `{waiting:true}`. -/
def bg_handleAddChainRequest (st : BgState) (stor : Option PendingAddChainRequest)
    (chainData : Option CustomChain) (origin : String) (requestId now : Nat) :
    ReqOutcome PendingAddChainRequest :=
  if !(siteConnected st origin) then
    ⟨.errResp (.obj 4100 "Site not connected"), stor, none⟩
  else
    match chainData with
    | none => ⟨.errResp (.obj 4200 "Invalid chain parameters"), stor, none⟩
    | some cd =>
      if !(jsTruthyStr cd.chainId) || !(jsTruthyStr cd.chainName)
          || cd.rpcUrls == none || cd.rpcUrls == some [] then
        ⟨.errResp (.obj 4200 "Invalid chain parameters"), stor, none⟩
      else
        ⟨.waiting, some ⟨requestId, origin, cd, now⟩, some ("addChain", requestId)⟩

/-- `handleSendTransactionRequest` (background.js:1077-1136). Branches, in
source order: origin not connected → `{code:4100}`; no transaction object
→ `{code:4200}`; no `to` and no `data` field → `{code:4200}`; otherwise
store a `pendingTransactionRequest`, open the popup, respond `{waiting:true}`. -/
def bg_handleSendTransactionRequest (st : BgState) (stor : Option PendingTxRequest)
    (transaction : Option EthTransaction) (origin : String) (requestId now : Nat) :
    ReqOutcome PendingTxRequest :=
  if !(siteConnected st origin) then
    ⟨.errResp (.obj 4100 "Site not connected"), stor, none⟩
  else
    match transaction with
    | none => ⟨.errResp (.obj 4200 "Invalid transaction parameters"), stor, none⟩
    | some tx =>
      if !(jsTruthyStr tx.toAddr) && !(jsTruthyStr tx.callData) then
        ⟨.errResp (.obj 4200 "Invalid transaction parameters: missing \"to\" or \"data\""), stor, none⟩
      else
        ⟨.waiting, some ⟨requestId, origin, tx, st.selectedChainId, now⟩,
          some ("transaction", requestId)⟩

/-- `handlePersonalSignRequest` (background.js:1206-1252). Branches, in
source order: origin not connected → `{code:4100}`; signing address not in
the site's granted accounts → `{code:4100, message:'Unauthorized account'}`;
otherwise store a `pendingSignRequest`, open the popup, respond `{waiting:true}`. -/
def bg_handlePersonalSignRequest (st : BgState) (stor : Option PendingSignRequest)
    (msgData address origin : String) (requestId now : Nat) : ReqOutcome PendingSignRequest :=
  if !(siteConnected st origin) then
    ⟨.errResp (.obj 4100 "Site not connected"), stor, none⟩
  else
    let siteAccounts := match keyGet st.connectedSites origin with
      | some s => s.accounts
      | none => []
    if !(siteAccounts.contains address) then
      ⟨.errResp (.obj 4100 "Unauthorized account"), stor, none⟩
    else
      ⟨.waiting, some ⟨requestId, origin, msgData, address, now⟩,
        some ("personalSign", requestId)⟩

/-! ## Background response (human decision) handlers -/

/-- What a background response handler produces: the new wallet state, the
new content of its pending-request storage slot, and the messages sent to
tabs, in order. -/
structure RespOutcome (P : Type) where
  state : BgState
  pending : Option P
  broadcasts : List (Nat × TabMsg)
deriving Repr

/-- The error payload every rejection branch broadcasts. -/
def userRejectedErr : ErrorPayload := .obj 4001 "User rejected the request."

/-- `handleSwitchChainResponse` (background.js:846-924). Missing pending
request or id mismatch → early return before the storage `remove`, so
nothing changes and nothing is broadcast. Approved → set
`selectedChainId`, update the site record's chainId, and send each
matching tab `SWITCH_CHAIN_RESPONSE` followed by a `chainChanged`
`WALLET_EVENT`. Rejected → send each matching tab `SWITCH_CHAIN_RESPONSE`
carrying `{code:4001}`; no state mutation. Both settle paths clear the slot. -/
def bg_handleSwitchChainResponse (st : BgState) (stor : Option PendingChainRequest)
    (tabs : List Tab) (requestId : Nat) (approved : Bool) : RespOutcome PendingChainRequest :=
  match stor with
  | none => ⟨st, none, []⟩
  | some p =>
    if p.id != requestId then ⟨st, some p, []⟩
    else
      let matching := tabs.filter (fun t => tabMatches t p.origin)
      if approved then
        let st1 := { st with
          selectedChainId := some p.chainId,
          connectedSites := sitesSetChainId st.connectedSites p.origin p.chainId }
        ⟨st1, none,
          matching.flatMap (fun t =>
            [(t.id, TabMsg.switchChainResponse requestId true (some p.chainId) none),
             (t.id, TabMsg.walletEvent "chainChanged" (.chainStr p.chainId))])⟩
      else
        ⟨st, none,
          matching.map (fun t =>
            (t.id, TabMsg.switchChainResponse requestId false none (some userRejectedErr)))⟩

/-- `handleTransactionResponse` (background.js:1141-1201). Missing pending
request or id mismatch → early return, nothing changes. Approved → send
each matching tab `SEND_TRANSACTION_RESPONSE` with the hash; rejected →
the same message type carrying `{code:4001}`. Neither branch mutates the
wallet state. -/
def bg_handleTransactionResponse (st : BgState) (stor : Option PendingTxRequest)
    (tabs : List Tab) (requestId : Nat) (approved : Bool) (txHash : Option String) :
    RespOutcome PendingTxRequest :=
  match stor with
  | none => ⟨st, none, []⟩
  | some p =>
    if p.id != requestId then ⟨st, some p, []⟩
    else
      let matching := tabs.filter (fun t => tabMatches t p.origin)
      if approved then
        ⟨st, none,
          matching.map (fun t =>
            (t.id, TabMsg.sendTransactionResponse requestId true txHash none))⟩
      else
        ⟨st, none,
          matching.map (fun t =>
            (t.id, TabMsg.sendTransactionResponse requestId false none (some userRejectedErr)))⟩

/-- `handleConnectResponse` (background.js:656-791). `msgAccounts` is the
accounts array of the approval message, `storedAccount` the address parsed
from the `account` storage key, `tabAck t` whether tab `t` answered the
`CONNECT_RESPONSE` callback (only then are the `connect` and
`accountsChanged` WALLET_EVENTs sent, in that order). -/
def bg_handleConnectResponse (st : BgState) (stor : Option PendingConnectRequest)
    (tabs : List Tab) (requestId : Nat) (approved : Bool)
    (msgAccounts : Option (List String)) (storedAccount : Option String)
    (tabAck : Nat → Bool) (now : Nat) : RespOutcome PendingConnectRequest :=
  match stor with
  | none => ⟨st, none, []⟩
  | some p =>
    if p.id != requestId then ⟨st, some p, []⟩
    else
      let matching := tabs.filter (fun t => tabMatches t p.origin)
      if approved then
        let accountsToUse₀ := match msgAccounts with
          | some l => if l.length > 0 then l else st.accounts
          | none => st.accounts
        let accountsToUse := if accountsToUse₀.isEmpty then
            (match storedAccount with
             | some addr => [addr]
             | none => accountsToUse₀)
          else accountsToUse₀
        let st1 := if accountsToUse.length > 0 then { st with accounts := accountsToUse } else st
        let chainId := st1.selectedChainId.getD "137"
        let st2 := { st1 with
          connectedSites := keySet st1.connectedSites p.origin
            ⟨p.origin, accountsToUse, chainId, true, now, ["eth_accounts"], now⟩ }
        ⟨st2, none,
          matching.flatMap (fun t =>
            (t.id, TabMsg.connectResponse requestId true accountsToUse (some chainId) none) ::
            (if tabAck t.id then
              [(t.id, TabMsg.walletEvent "connect" (.connectInfo chainId)),
               (t.id, TabMsg.walletEvent "accountsChanged" (.accountsList accountsToUse))]
             else []))⟩
      else
        ⟨st, none,
          matching.map (fun t =>
            (t.id, TabMsg.connectResponse requestId false [] none (some userRejectedErr)))⟩

/-! ## Background message-listener dispatch environment

`background.js` dispatches inbound request messages by `message.type` to
named handler functions. Several of the names it calls are declared
nowhere in the script, so reaching those branches raises a
`ReferenceError` before `sendResponse` can run. We model the script's
top-level declaration environment and the listener's dispatch table as
data read off the source. -/

/-- Every top-level binding declared in `background.js`. -/
def backgroundDeclaredNames : List String :=
  ["browserAPI", "rpcCache", "state",
   "saveState", "saveConnectedSites", "saveCustomTokens", "saveCustomChains",
   "openPopupForApproval", "notifyConnectedSite",
   "handleConnectRequest", "proceedWithConnectionRequest", "handleConnectResponse",
   "handleSwitchChainRequest", "handleSwitchChainResponse",
   "handleAddChainRequest", "handleAddChainResponse",
   "handleSendTransactionRequest", "handleTransactionResponse",
   "handlePersonalSignRequest", "handleSignResponse", "handleWeb3Request"]

/-- The handler name the first `runtime.onMessage` listener
(background.js:367-562) calls for each `*_REQUEST` message type. -/
def listenerDispatchTarget : String → Option String
  | "CONNECT_REQUEST" => some "handleConnectRequest"
  | "GET_ACCOUNTS_REQUEST" => some "handleGetAccountsRequest"
  | "GET_CHAINID_REQUEST" => some "handleGetChainIdRequest"
  | "SEND_TRANSACTION_REQUEST" => some "handleSendTransactionRequest"
  | "SIGN_TRANSACTION_REQUEST" => some "handleSignTransactionRequest"
  | "GET_BALANCE_REQUEST" => some "handleGetBalanceRequest"
  | "PERSONAL_SIGN_REQUEST" => some "handlePersonalSignRequest"
  | "ETH_SIGN_REQUEST" => some "handleEthSignRequest"
  | "TYPED_SIGN_REQUEST" => some "handleTypedSignRequest"
  | "WATCH_ASSET_REQUEST" => some "handleWatchAssetRequest"
  | "ADD_CHAIN_REQUEST" => some "handleAddChainRequest"
  | "SWITCH_CHAIN_REQUEST" => some "handleSwitchChainRequest"
  | _ => none

/-- Outcome of the listener's dispatch step for a message type. -/
inductive DispatchOutcome
  | handled (fname : String)
  | referenceError (fname : String)
  | unhandled
deriving Repr, DecidableEq

/-- Dispatch of the background listener: calling an undeclared name
raises a `ReferenceError` in the listener body. -/
def bg_dispatch (msgType : String) : DispatchOutcome :=
  match listenerDispatchTarget msgType with
  | some f =>
    if backgroundDeclaredNames.contains f then .handled f else .referenceError f
  | none => .unhandled

/-- Whether the dispatch step can ever reach a `sendResponse` call: a
`ReferenceError` aborts the listener before any handler runs. -/
def dispatchCanRespond : DispatchOutcome → Bool
  | .handled _ => true
  | .referenceError _ => false
  | .unhandled => false

/-! ## Content relay (content-script half of `injectScript.js`) -/

/-- A background `sendResponse` value as the content script's field checks
see it: which of `success`, `waiting`, `error`, `result`, `accounts`,
`chainId` are present. -/
structure JsResponse where
  success : Bool := false
  waiting : Bool := false
  error : Option ErrorPayload := none
  result : Option String := none
  accounts : Option (List String) := none
  chainId : Option String := none
deriving Repr, DecidableEq

/-- The field shape of each concrete background response. -/
def bgResponseToJs : BgResponse → JsResponse
  | .errResp e => { error := some e }
  | .waiting => { waiting := true }
  | .chainIdOnly c => { chainId := some c }
  | .connectSuccess a c => { success := true, accounts := some a, chainId := some c }

/-- How a content-relay request handler settles the page-facing promise. -/
inductive ContentOutcome
  | resolvedNull
  | resolvedAccounts (accounts : List String) (chainId : String)
  | storedPending (requestId : Nat)
  | rejectedErr (e : JsErrorVal)
deriving Repr, DecidableEq

/-- Content `handleSwitchChainRequest` / `handleAddChainRequest` response
processing (injectScript.js content part): checks, in order,
`response.success` → resolve `null`; `response.waiting` → store the
pending entry; `response.error` → `reject(new Error(response.error))`;
anything else → reject with `'Invalid response from wallet'`. No response
at all (the background never replied) → the 30s `sendMessage` timeout
rejects with `'Response timeout'`. -/
def content_chainRequestOutcome (resp : Option JsResponse) (requestId : Nat) : ContentOutcome :=
  match resp with
  | none => .rejectedErr (.errorInst "Response timeout")
  | some r =>
    if r.success then .resolvedNull
    else if r.waiting then .storedPending requestId
    else match r.error with
      | some e => .rejectedErr (jsNewError e)
      | none => .rejectedErr (.errorInst "Invalid response from wallet")

/-- Content `handleGetAccountsRequest`: resolves `response.accounts` when
present, otherwise resolves `[]`; every error path (including the
`sendMessage` timeout when the background never responds) also resolves
`[]`. -/
def content_getAccountsResult (resp : Option JsResponse) : List String :=
  match resp with
  | none => []
  | some r => r.accounts.getD []

/-- Content runtime-listener settlement of a pending transaction promise
(`handleTransactionResponse`, shared file lines 1078-1099): no matching
pending entry → no-op; `approved && result` → resolve the hash; otherwise
`reject(error || new Error('Transaction rejected'))` — the error object is
passed to `reject` unwrapped. -/
inductive SettleOutcome
  | noop
  | resolvedWith (v : Option String)
  | rejectedWith (e : JsErrorVal)
deriving Repr, DecidableEq

def content_settleTransaction (pendingExists : Bool) (approved : Bool)
    (result : Option String) (error : Option ErrorPayload) : SettleOutcome :=
  if !pendingExists then .noop
  else if approved && result.isSome then .resolvedWith result
  else .rejectedWith (match error with
    | some e => .plainErr e
    | none => .errorInst "Transaction rejected")

/-- Content runtime-listener settlement for `SWITCH_CHAIN_RESPONSE` /
`ADD_CHAIN_RESPONSE` (shared file lines 1480-1500): approved → resolve
`null`; otherwise `reject(new Error(error || 'Request rejected'))`. -/
def content_settleChain (pendingExists : Bool) (approved : Bool)
    (error : Option ErrorPayload) : SettleOutcome :=
  if !pendingExists then .noop
  else if approved then .resolvedWith none
  else .rejectedWith (match error with
    | some e => jsNewError e
    | none => .errorInst "Request rejected")

/-- The content runtime-listener's `WALLET_EVENT` case (shared file lines
1564-1574): the event is forwarded to the page unconditionally — no
session, origin or `connected` check. -/
def content_forwardWalletEvent (eventName : String) (eventData : EventData) :
    List (String × EventData) :=
  [(eventName, eventData)]

/-! ## Page provider (`crossNetWallet` in `injectScript.js`) -/

/-- JS `parseInt(s, 16)`: optional `0x`/`0X` prefix, then the longest
leading run of hex digits; `none` models `NaN`. -/
def hexDigitVal (c : Char) : Option Nat :=
  let n := c.toNat
  if 48 ≤ n && n ≤ 57 then some (n - 48)
  else if 97 ≤ n && n ≤ 102 then some (n - 87)
  else if 65 ≤ n && n ≤ 70 then some (n - 55)
  else none

def parseHexDigits : List Char → Nat → Nat
  | [], acc => acc
  | c :: t, acc =>
    match hexDigitVal c with
    | some v => parseHexDigits t (16 * acc + v)
    | none => acc

def jsParseIntHex (s : String) : Option Nat :=
  let cs := match s.data with
    | '0' :: 'x' :: rest => rest
    | '0' :: 'X' :: rest => rest
    | other => other
  match cs with
  | [] => none
  | c :: _ => if (hexDigitVal c).isSome then some (parseHexDigits cs 0) else none

/-- `parseInt(chainId, 16).toString()` with `chainId` possibly absent:
`NaN.toString()` is the string `"NaN"`. -/
def jsHexToDecString : Option String → String
  | none => "NaN"
  | some s =>
    match jsParseIntHex s with
    | some n => toString n
    | none => "NaN"

/-- The provider-instance fields of `crossNetWallet` the protocol logic
reads or writes (injectScript.js:34-47). -/
structure ProviderState where
  isConnected : Bool
  connected : Bool
  accounts : List String
  selectedAddress : Option String
  chainId : Option String
  networkVersion : Option String
  chainSwitchInProgress : Bool
deriving Repr, DecidableEq

/-- An event emitted by `crossNetWallet.emit`, with its payload. -/
inductive EmittedEvent
  | accountsChangedEvt (accounts : List String)
  | chainChangedEvt (chainId : Option String)
  | connectEvt (chainId : Option String)
  | networkChangedEvt (version : String)
  | chainIdChangedEvt (chainId : String)
  | disconnectEvt (code : Int) (message : String)
deriving Repr, DecidableEq

/-- The event name `crossNetWallet.emit` is called with. -/
def emittedEventName : EmittedEvent → String
  | .accountsChangedEvt _ => "accountsChanged"
  | .chainChangedEvt _ => "chainChanged"
  | .connectEvt _ => "connect"
  | .networkChangedEvt _ => "networkChanged"
  | .chainIdChangedEvt _ => "chainIdChanged"
  | .disconnectEvt _ _ => "disconnect"

/-- `crossNetWallet.connect` response processing (injectScript.js:110-136):
when the response carries a non-empty `accounts` array the provider
updates its fields and emits, in source order, `accountsChanged`,
`chainChanged`, `connect`; otherwise nothing happens. -/
def provider_connectOnResponse (st : ProviderState) (respAccounts : Option (List String))
    (respChainId : Option String) : ProviderState × List EmittedEvent :=
  match respAccounts with
  | some accts =>
    if accts.length > 0 then
      let st1 := { st with
        accounts := accts,
        selectedAddress := accts.head?,
        chainId := respChainId,
        networkVersion := some (jsHexToDecString respChainId),
        isConnected := true,
        connected := true }
      (st1, [.accountsChangedEvt accts, .chainChangedEvt respChainId, .connectEvt respChainId])
    else (st, [])
  | none => (st, [])

/-- How a `switchChain`/`addChain` call begins. `blocked` and
`invalidParams` are thrown before any request message is posted, so
nothing is queued or sent in those cases. -/
inductive StartOutcome
  | blocked (code : Int) (message : String)
  | invalidParams (code : Int) (message : String)
  | proceed
deriving Repr, DecidableEq

/-- `crossNetWallet.switchChain` entry guard (injectScript.js:268-277):
if `_chainSwitchInProgress` is set, throw RESOURCE_UNAVAILABLE (-32002);
the catch block then resets the flag to `false`. Otherwise set the flag
and proceed to `_sendRequest`. -/
def provider_switchChainStart (st : ProviderState) : StartOutcome × ProviderState :=
  if st.chainSwitchInProgress then
    (.blocked (-32002) "Chain switch already in progress",
     { st with chainSwitchInProgress := false })
  else (.proceed, { st with chainSwitchInProgress := true })

/-- `crossNetWallet.addChain` entry (injectScript.js:313-331): the same
in-progress guard with message `'Chain operation already in progress'`,
then chain-data validation (thrown after the flag is set; the catch resets
it, so the net flag is `false` on both throw paths). -/
def provider_addChainStart (st : ProviderState) (chainId chainName : Option String)
    (rpcUrls : Option (List String)) : StartOutcome × ProviderState :=
  if st.chainSwitchInProgress then
    (.blocked (-32002) "Chain operation already in progress",
     { st with chainSwitchInProgress := false })
  else if !(jsTruthyStr chainId) || !(jsTruthyStr chainName)
      || rpcUrls == none || rpcUrls == some [] then
    (.invalidParams (-32602) "Invalid chain data: chainId, chainName, and rpcUrls are required",
     { st with chainSwitchInProgress := false })
  else (.proceed, { st with chainSwitchInProgress := true })

/-- `crossNetWallet.switchChain` completion (injectScript.js:280-299):
when the awaited response object has a truthy `success` field the provider
updates `chainId`/`networkVersion` and, only if the chain actually
changed, emits `chainChanged`, `networkChanged` (decimal) and
`chainIdChanged` (hex), in that order; the in-progress flag is always
cleared and the call resolves `null`. -/
def provider_switchChainFinish (st : ProviderState) (chainId : String) (respSuccess : Bool) :
    ProviderState × List EmittedEvent :=
  if respSuccess then
    let oldChainId := st.chainId
    let st1 := { st with
      chainId := some chainId,
      networkVersion := some (jsHexToDecString (some chainId)),
      chainSwitchInProgress := false }
    if oldChainId != some chainId then
      (st1, [.chainChangedEvt (some chainId),
             .networkChangedEvt (jsHexToDecString (some chainId)),
             .chainIdChangedEvt chainId])
    else (st1, [])
  else ({ st with chainSwitchInProgress := false }, [])

/-! ## Provider event emitter (`_events` / `on` / `emit`) -/

/-- A page listener: applied to the event payload it either returns or
throws (models an arbitrary JS listener body). -/
def PageListener (α : Type) : Type := α → Except String Unit

/-- One iteration of `crossNetWallet.emit`'s forEach: the listener is
invoked inside its own try/catch, so a throwing listener's exception is
recorded (logged) and iteration continues. -/
def emitStep {α : Type} (arg : α) (acc : Except String (List (Except String Unit)))
    (l : PageListener α) : Except String (List (Except String Unit)) :=
  match acc with
  | .error e => .error e
  | .ok outs =>
    match l arg with
    | .ok u => .ok (outs ++ [Except.ok u])
    | .error e => .ok (outs ++ [Except.error e])

/-- The whole forEach loop of `crossNetWallet.emit`. -/
def emitFold {α : Type} (arg : α) (ls : List (PageListener α)) :
    Except String (List (Except String Unit)) :=
  ls.foldl (emitStep arg) (.ok [])

/-- `crossNetWallet.emit(eventName, ...args)` (injectScript.js:457-466):
`if (!this._events[eventName]) return;` then forEach with try/catch. -/
def providerEmit {α : Type} (events : List (String × List (PageListener α)))
    (name : String) (arg : α) : Except String (List (Except String Unit)) :=
  match keyGet events name with
  | none => .ok []
  | some ls => emitFold arg ls

/-! ## Concrete fixtures used by several scenarios -/

/-- A session record for `https://dapp.example` as `handleConnectResponse`
would write it. -/
def exSite : ConnectedSite :=
  ⟨"https://dapp.example", ["0xABC"], "0x89", true, 0, ["eth_accounts"], 0⟩

/-- Background state with `https://dapp.example` connected and chain `0x89`
selected. -/
def exState : BgState :=
  ⟨true, ["0xABC"], some "0x89", [("https://dapp.example", exSite)], []⟩

/-- Background state with no connected sites. -/
def emptyState : BgState := ⟨true, ["0xABC"], some "0x89", [], []⟩

/-- A tab showing a page of origin `https://dapp.example`. -/
def exTabA : Tab := ⟨1, some "https://dapp.example/swap", "https://dapp.example"⟩

/-- A tab showing a page of a different origin whose URL merely mentions
`https://dapp.example` in a query parameter. -/
def exTabB : Tab :=
  ⟨2, some "https://evil.example/?next=https://dapp.example", "https://evil.example"⟩

/-- A pending `eth_sendTransaction` request from the connected example site. -/
def exPendingTx : PendingTxRequest :=
  ⟨7, "https://dapp.example", ⟨some "0xDEF", none, some "0x38D7EA4C68000"⟩, some "0x89", 0⟩

/-- A pending connect request from the example site. -/
def exPendingConnect : PendingConnectRequest := ⟨5, "https://dapp.example", 0⟩

/-- A pending chain-switch request from the example site to chain `0x1`. -/
def exPendingChain : PendingChainRequest := ⟨9, "https://dapp.example", "0x1", 0⟩

/-- A provider instance already holding account `0xABC` on chain `0x89`. -/
def exProviderState : ProviderState :=
  ⟨false, false, ["0xABC"], some "0xABC", some "0x89", some "137", false⟩

/-- Recognizer for `connect` emissions. -/
def isConnectEvt : EmittedEvent → Bool
  | .connectEvt _ => true
  | _ => false

/-- Recognizer for `accountsChanged` emissions. -/
def isAccountsChangedEvt : EmittedEvent → Bool
  | .accountsChangedEvt _ => true
  | _ => false

/-- The ordering property claimed of a connect emission trace: either no
`accountsChanged` is emitted, or some `connect` is emitted strictly before
the first `accountsChanged`. -/
def connectObservedBeforeAccountsChanged (evs : List EmittedEvent) : Bool :=
  match evs.findIdx? isConnectEvt, evs.findIdx? isAccountsChangedEvt with
  | _, none => true
  | some i, some j => decide (i < j)
  | none, some _ => false

/-! ## Helper lemmas -/

theorem emitStep_ok {α : Type} (arg : α) (outs : List (Except String Unit))
    (l : PageListener α) : emitStep arg (.ok outs) l = .ok (outs ++ [l arg]) := by
  unfold emitStep
  cases h : l arg <;> simp [h]

theorem emitFold_go {α : Type} (arg : α) (ls : List (PageListener α)) :
    ∀ outs, ls.foldl (emitStep arg) (.ok outs) = .ok (outs ++ ls.map (fun l => l arg)) := by
  induction ls with
  | nil => intro outs; simp
  | cons l t ih =>
    intro outs
    rw [List.foldl_cons, emitStep_ok, ih]
    simp

theorem emitFold_ok {α : Type} (arg : α) (ls : List (PageListener α)) :
    emitFold arg ls = .ok (ls.map (fun l => l arg)) := by
  simpa using emitFold_go arg ls []

theorem countP_chainChanged_flatMap (l : List Tab) (rid : Nat) (c : String) :
    (l.flatMap (fun t =>
        [(t.id, TabMsg.switchChainResponse rid true (some c) none),
         (t.id, TabMsg.walletEvent "chainChanged" (EventData.chainStr c))])).countP
      (fun m => match m.2 with
        | TabMsg.walletEvent n _ => n == "chainChanged"
        | _ => false) = l.length := by
  induction l with
  | nil => rfl
  | cons t ts ih => simp [List.countP_cons, ih]

/-! ## Claim theorems -/

/-- C10: for every event emitted via the page provider's
`emit(eventName, ...args)`, every registered listener is invoked on the
payload (a throwing listener is caught and does not prevent the remaining
listeners from running — the result records each listener's own outcome),
`emit` never propagates a listener exception to its caller (the overall
result is always `.ok`), and emitting an event with no registered
listeners produces the empty invocation list (a no-op). -/
theorem emit_listener_exception_isolated :
    ∀ (α : Type) (events : List (String × List (PageListener α))) (name : String) (arg : α),
      providerEmit events name arg
        = Except.ok (((keyGet events name).getD []).map (fun l => l arg)) := by
  intro α events name arg
  unfold providerEmit
  cases h : keyGet events name with
  | none => simp
  | some ls => simp [emitFold_ok]

/-- C9: the background listener dispatches GET_ACCOUNTS_REQUEST,
GET_CHAINID_REQUEST, GET_BALANCE_REQUEST, SIGN_TRANSACTION_REQUEST,
ETH_SIGN_REQUEST, TYPED_SIGN_REQUEST and WATCH_ASSET_REQUEST to handler
names declared nowhere in `background.js`, so each such message raises a
`ReferenceError` and `sendResponse` is never reached; the content-script
`eth_accounts` caller then completes only through its own fallback,
resolving `[]`. -/
theorem undefined_request_handlers_never_respond :
    bg_dispatch "GET_ACCOUNTS_REQUEST" = .referenceError "handleGetAccountsRequest"
    ∧ bg_dispatch "GET_CHAINID_REQUEST" = .referenceError "handleGetChainIdRequest"
    ∧ bg_dispatch "GET_BALANCE_REQUEST" = .referenceError "handleGetBalanceRequest"
    ∧ bg_dispatch "SIGN_TRANSACTION_REQUEST" = .referenceError "handleSignTransactionRequest"
    ∧ bg_dispatch "ETH_SIGN_REQUEST" = .referenceError "handleEthSignRequest"
    ∧ bg_dispatch "TYPED_SIGN_REQUEST" = .referenceError "handleTypedSignRequest"
    ∧ bg_dispatch "WATCH_ASSET_REQUEST" = .referenceError "handleWatchAssetRequest"
    ∧ (["GET_ACCOUNTS_REQUEST", "GET_CHAINID_REQUEST", "GET_BALANCE_REQUEST",
        "SIGN_TRANSACTION_REQUEST", "ETH_SIGN_REQUEST", "TYPED_SIGN_REQUEST",
        "WATCH_ASSET_REQUEST"].all
          (fun t => !(dispatchCanRespond (bg_dispatch t)))) = true
    ∧ content_getAccountsResult none = [] := by
  decide

/-- C7: while a chain switch is in flight (`_chainSwitchInProgress` set),
a second `wallet_switchEthereumChain` or `wallet_addEthereumChain` call on
the provider fails fast with the RESOURCE_UNAVAILABLE error (-32002),
thrown before any request is posted (so nothing is queued); and the first
call's completion is independent of the in-progress flag, so it proceeds
unaffected. -/
theorem concurrent_chain_switch_fails_fast (st : ProviderState)
    (h : st.chainSwitchInProgress = true)
    (cid cname : Option String) (urls : Option (List String)) :
    (provider_switchChainStart st).1 = .blocked (-32002) "Chain switch already in progress"
    ∧ (provider_addChainStart st cid cname urls).1
        = .blocked (-32002) "Chain operation already in progress"
    ∧ ∀ (ps : ProviderState) (c : String) (r : Bool) (b b' : Bool),
        provider_switchChainFinish { ps with chainSwitchInProgress := b } c r
          = provider_switchChainFinish { ps with chainSwitchInProgress := b' } c r := by
  refine ⟨?_, ?_, ?_⟩
  · simp [provider_switchChainStart, h]
  · simp [provider_addChainStart, h]
  · intro ps c r b b'
    cases r <;> simp [provider_switchChainFinish]

/-- Witness for C7 at a concrete in-flight provider state. -/
theorem concurrent_chain_switch_fails_fast_witness :
    (provider_switchChainStart
        ⟨true, true, ["0xABC"], some "0xABC", some "0x89", some "137", true⟩).1
      = .blocked (-32002) "Chain switch already in progress" :=
  (concurrent_chain_switch_fails_fast
    ⟨true, true, ["0xABC"], some "0xABC", some "0x89", some "137", true⟩
    rfl none none none).1

/-- C8: an approval/rejection message whose requestId matches no pending
request (slot empty, or id mismatch) is a no-op for the chain-switch and
transaction response handlers: state unchanged, storage slot unchanged,
nothing broadcast; and processing the same `{requestId, approved:true}`
chain-switch approval twice applies the switch once — the second pass
finds the slot cleared, changes nothing and broadcasts nothing (so
`chainChanged` is broadcast at most once across the two). -/
theorem stale_approval_message_is_noop (st : BgState) (tabs : List Tab)
    (p : PendingChainRequest) (q : PendingTxRequest) (rid : Nat) (b : Bool)
    (tx : Option String) (hp : p.id ≠ rid) (hq : q.id ≠ rid) :
    bg_handleSwitchChainResponse st none tabs rid b = ⟨st, none, []⟩
    ∧ bg_handleTransactionResponse st none tabs rid b tx = ⟨st, none, []⟩
    ∧ bg_handleSwitchChainResponse st (some p) tabs rid b = ⟨st, some p, []⟩
    ∧ bg_handleTransactionResponse st (some q) tabs rid b tx = ⟨st, some q, []⟩
    ∧ (bg_handleSwitchChainResponse
        (bg_handleSwitchChainResponse st (some p) tabs p.id true).state
        (bg_handleSwitchChainResponse st (some p) tabs p.id true).pending
        tabs p.id true).broadcasts = []
    ∧ (bg_handleSwitchChainResponse
        (bg_handleSwitchChainResponse st (some p) tabs p.id true).state
        (bg_handleSwitchChainResponse st (some p) tabs p.id true).pending
        tabs p.id true).state
      = (bg_handleSwitchChainResponse st (some p) tabs p.id true).state := by
  have hpend : (bg_handleSwitchChainResponse st (some p) tabs p.id true).pending = none := by
    simp [bg_handleSwitchChainResponse]
  refine ⟨rfl, rfl, ?_, ?_, ?_, ?_⟩
  · simp [bg_handleSwitchChainResponse, hp]
  · simp [bg_handleTransactionResponse, hq]
  · rw [hpend]; rfl
  · rw [hpend]; rfl

/-- Witness for C8 at concrete state, tabs and requests. -/
theorem stale_approval_message_is_noop_witness :
    bg_handleSwitchChainResponse exState none [exTabA] 0 true = ⟨exState, none, []⟩ :=
  (stale_approval_message_is_noop exState [exTabA] exPendingChain exPendingTx 0 true none
    (by decide) (by decide)).1

/-- C1 (code bug): broadcasting an `accountsChanged` event for origin
`https://dapp.example` delivers the WALLET_EVENT to a tab whose page
origin is `https://evil.example`, because `notifyConnectedSite` matches
tabs by URL substring containment (`tab.url.includes(origin)`) and the
tab's URL mentions the target origin in a query parameter; the content
relay then forwards the event into that page unconditionally, with no
`connected` check. The claimed isolation fails. -/
theorem broadcast_leaks_to_substring_matched_origin :
    notifyConnectedSite [exTabA, exTabB] "https://dapp.example" "accountsChanged"
        (.accountsList ["0xABC"])
      = [(1, .walletEvent "accountsChanged" (.accountsList ["0xABC"])),
         (2, .walletEvent "accountsChanged" (.accountsList ["0xABC"]))]
    ∧ exTabB.pageOrigin ≠ "https://dapp.example"
    ∧ content_forwardWalletEvent "accountsChanged" (.accountsList ["0xABC"])
        = [("accountsChanged", .accountsList ["0xABC"])] := by
  exact ⟨by decide, by decide, rfl⟩

/-- C3 (code bug): on a rejected transaction the broker mutates no wallet
state and broadcasts `{code:4001, message:"User rejected the request."}`,
but the content relay rejects the pending page promise with the raw error
object and its window-listener catch recomputes the code from the message
alone — the case-sensitive check for `'user rejected'` misses
`"User rejected the request."` — so the page receives code -32603, not
4001. -/
theorem rejected_tx_code_lost_in_relay :
    (bg_handleTransactionResponse exState (some exPendingTx) [exTabA] 7 false none).state
      = exState
    ∧ (bg_handleTransactionResponse exState (some exPendingTx) [exTabA] 7 false none).broadcasts
      = [(1, .sendTransactionResponse 7 false none
            (some (.obj 4001 "User rejected the request.")))]
    ∧ content_settleTransaction true false none (some userRejectedErr)
      = .rejectedWith (.plainErr userRejectedErr)
    ∧ pageErrorOfReject (.plainErr userRejectedErr)
      = (-32603, "User rejected the request.") := by
  exact ⟨by decide, by decide, by decide, by decide⟩

/-- C4 (code bug): an approved Connect for `https://dapp.example` with
accounts `["0xABC"]` does create a session record with `connected=true`
and exactly those accounts; but a subsequent `eth_accounts` round trip
dispatches GET_ACCOUNTS_REQUEST to the undeclared
`handleGetAccountsRequest` (ReferenceError, no response ever sent), and
the content script's fallback resolves `[]` — not the granted list. -/
theorem connect_session_ok_but_accounts_roundtrip_empty :
    keyGet (bg_handleConnectResponse emptyState (some exPendingConnect) [exTabA] 5 true
        (some ["0xABC"]) none (fun _ => false) 0).state.connectedSites "https://dapp.example"
      = some ⟨"https://dapp.example", ["0xABC"], "0x89", true, 0, ["eth_accounts"], 0⟩
    ∧ bg_dispatch "GET_ACCOUNTS_REQUEST" = .referenceError "handleGetAccountsRequest"
    ∧ dispatchCanRespond (bg_dispatch "GET_ACCOUNTS_REQUEST") = false
    ∧ content_getAccountsResult none = []
    ∧ (([] : List String) ≠ ["0xABC"]) := by
  exact ⟨by decide, by decide, by decide, rfl, by decide⟩

/-- C2 counterexample: a `wallet_switchEthereumChain` request from an
origin with no session is rejected with the bare string error
`'Site not connected'` carrying no numeric code at all — not with
`{code:4100}` as claimed (though no pending request or popup is created). -/
theorem unconnected_switch_chain_error_has_no_code :
    (bg_handleSwitchChainRequest emptyState none "0x1" "https://dapp.example" 3 0).response
      = .errResp (.str "Site not connected")
    ∧ responseErrorCode
        (bg_handleSwitchChainRequest emptyState none "0x1" "https://dapp.example" 3 0).response
      = none
    ∧ (bg_handleSwitchChainRequest emptyState none "0x1" "https://dapp.example" 3 0).pending
      = none
    ∧ (bg_handleSwitchChainRequest emptyState none "0x1" "https://dapp.example" 3 0).popup
      = none := by
  decide

/-- C2 amended: for an origin with no session or `connected=false`,
SendTransaction, PersonalSign and AddChain are rejected immediately with
`{code:4100, message:'Site not connected'}`, SwitchChain is rejected
immediately with the codeless string error `'Site not connected'`; none
of the four creates a pending request or opens a popup; and EthSign and
TypedSign dispatch to undeclared handlers, so the listener raises a
`ReferenceError` and produces no response (hence no pending request or
popup either). -/
theorem unauthorized_requests_rejected_without_pending (st : BgState) (origin : String)
    (h : siteConnected st origin = false)
    (storTx : Option PendingTxRequest) (storSign : Option PendingSignRequest)
    (storAdd : Option PendingAddChainRequest) (storSw : Option PendingChainRequest)
    (tx : Option EthTransaction) (cd : Option CustomChain)
    (m a c : String) (rid now : Nat) :
    bg_handleSendTransactionRequest st storTx tx origin rid now
      = ⟨.errResp (.obj 4100 "Site not connected"), storTx, none⟩
    ∧ bg_handlePersonalSignRequest st storSign m a origin rid now
      = ⟨.errResp (.obj 4100 "Site not connected"), storSign, none⟩
    ∧ bg_handleAddChainRequest st storAdd cd origin rid now
      = ⟨.errResp (.obj 4100 "Site not connected"), storAdd, none⟩
    ∧ bg_handleSwitchChainRequest st storSw c origin rid now
      = ⟨.errResp (.str "Site not connected"), storSw, none⟩
    ∧ bg_dispatch "ETH_SIGN_REQUEST" = .referenceError "handleEthSignRequest"
    ∧ bg_dispatch "TYPED_SIGN_REQUEST" = .referenceError "handleTypedSignRequest"
    ∧ dispatchCanRespond (bg_dispatch "ETH_SIGN_REQUEST") = false
    ∧ dispatchCanRespond (bg_dispatch "TYPED_SIGN_REQUEST") = false := by
  refine ⟨?_, ?_, ?_, ?_, by decide, by decide, by decide, by decide⟩
  · simp [bg_handleSendTransactionRequest, h]
  · simp [bg_handlePersonalSignRequest, h]
  · simp [bg_handleAddChainRequest, h]
  · simp [bg_handleSwitchChainRequest, h]

/-- Witness for the amended C2 at a state with no connected sites. -/
theorem unauthorized_requests_rejected_without_pending_witness :
    bg_handleSendTransactionRequest emptyState none none "https://dapp.example" 3 0
      = ⟨.errResp (.obj 4100 "Site not connected"), none, none⟩ :=
  (unauthorized_requests_rejected_without_pending emptyState "https://dapp.example"
    (by decide) none none none none none none "hello" "0xABC" "0x1" 3 0).1

/-- C5 counterexample: on a successful connect response the page provider
emits `accountsChanged` first and `connect` last (source order
injectScript.js:124-126), so `connect` is not observable before the first
`accountsChanged`; and `accountsChanged` is emitted even though the
provider's account set was already exactly the responded list. -/
theorem connect_emission_order_violates_claim :
    (provider_connectOnResponse exProviderState (some ["0xABC"]) (some "0x89")).2
      = [.accountsChangedEvt ["0xABC"], .chainChangedEvt (some "0x89"),
         .connectEvt (some "0x89")]
    ∧ connectObservedBeforeAccountsChanged
        (provider_connectOnResponse exProviderState (some ["0xABC"]) (some "0x89")).2 = false
    ∧ exProviderState.accounts = ["0xABC"] := by
  decide

/-- C5 amended: on every successful connect (a response carrying a
non-empty accounts list) the page provider emits, to every listener
registered via `on` and in this order, `accountsChanged`, then
`chainChanged`, then `connect` — unconditionally, whether or not the
account set changed — and updates its connection fields. -/
theorem connect_emits_accounts_then_chain_then_connect (st : ProviderState)
    (accts : List String) (chainId : Option String) (h : accts.length > 0) :
    (provider_connectOnResponse st (some accts) chainId).2
      = [.accountsChangedEvt accts, .chainChangedEvt chainId, .connectEvt chainId]
    ∧ (provider_connectOnResponse st (some accts) chainId).1
      = { st with
          accounts := accts,
          selectedAddress := accts.head?,
          chainId := chainId,
          networkVersion := some (jsHexToDecString chainId),
          isConnected := true,
          connected := true } := by
  unfold provider_connectOnResponse
  simp [h]

/-- Witness for the amended C5 at a concrete provider state and response. -/
theorem connect_emits_accounts_then_chain_then_connect_witness :
    (provider_connectOnResponse exProviderState (some ["0xDEF"]) (some "0x1")).2
      = [.accountsChangedEvt ["0xDEF"], .chainChangedEvt (some "0x1"),
         .connectEvt (some "0x1")] :=
  (connect_emits_accounts_then_chain_then_connect exProviderState ["0xDEF"] (some "0x1")
    (by decide)).1

/-- C6 counterexample: a `wallet_switchEthereumChain` to the
already-selected chain `0x89` does not succeed — the broker answers
`{chainId}` with no `success` field and the content relay rejects the call
with `'Invalid response from wallet'` (page code -32603); and an approved
switch that does change the chain reaches the page as two `chainChanged`
emissions (the provider's local one plus the relayed WALLET_EVENT), not
exactly one. -/
theorem same_chain_switch_rejected_and_event_doubled :
    (bg_handleSwitchChainRequest exState none "0x89" "https://dapp.example" 9 0).response
      = .chainIdOnly "0x89"
    ∧ content_chainRequestOutcome (some (bgResponseToJs (.chainIdOnly "0x89"))) 9
      = .rejectedErr (.errorInst "Invalid response from wallet")
    ∧ pageErrorOfReject (.errorInst "Invalid response from wallet")
      = (-32603, "Invalid response from wallet")
    ∧ (bg_handleSwitchChainResponse exState (some exPendingChain) [exTabA] 9 true).broadcasts
      = [(1, .switchChainResponse 9 true (some "0x1") none),
         (1, .walletEvent "chainChanged" (.chainStr "0x1"))]
    ∧ ((provider_switchChainFinish exProviderState "0x1" true).2.map emittedEventName
        ++ (content_forwardWalletEvent "chainChanged" (.chainStr "0x1")).map Prod.fst).count
          "chainChanged" = 2 := by
  decide

/-- C6 amended: an approved chain switch sets the broker's
`selectedChainId` to the requested chain (so `eth_chainId` resolves to
it); the provider's own `switchChain` emits `chainChanged` (plus legacy
`networkChanged` decimal and `chainIdChanged` hex) exactly when the
resulting chain differs from the prior one; but a switch to the
already-selected chain is answered by the broker with `{chainId}` and
rejected by the content relay as `'Invalid response from wallet'` rather
than succeeding, and an approved switch additionally relays a
`chainChanged` WALLET_EVENT into the page on top of the provider's local
emission. -/
theorem switch_chain_corrected_behavior (st : BgState)
    (stor : Option PendingChainRequest) (o c : String) (rid now : Nat)
    (ps ps' : ProviderState) (p : PendingChainRequest) (tabs : List Tab)
    (h1 : siteConnected st o = true) (h2 : st.selectedChainId = some c)
    (hdiff : ps.chainId ≠ some c) (hsame : ps'.chainId = some c) :
    bg_handleSwitchChainRequest st stor c o rid now = ⟨.chainIdOnly c, stor, none⟩
    ∧ content_chainRequestOutcome (some (bgResponseToJs (BgResponse.chainIdOnly c))) rid
      = .rejectedErr (.errorInst "Invalid response from wallet")
    ∧ (provider_switchChainFinish ps c true).2
      = [.chainChangedEvt (some c), .networkChangedEvt (jsHexToDecString (some c)),
         .chainIdChangedEvt c]
    ∧ (provider_switchChainFinish ps' c true).2 = []
    ∧ (bg_handleSwitchChainResponse st (some p) tabs p.id true).state.selectedChainId
      = some p.chainId
    ∧ (bg_handleSwitchChainResponse st (some p) tabs p.id true).broadcasts.countP
        (fun m => match m.2 with
          | TabMsg.walletEvent n _ => n == "chainChanged"
          | _ => false)
      = (tabs.filter (fun t => tabMatches t p.origin)).length := by
  refine ⟨?_, rfl, ?_, ?_, ?_, ?_⟩
  · simp [bg_handleSwitchChainRequest, h1, h2]
  · simp [provider_switchChainFinish, hdiff]
  · simp [provider_switchChainFinish, hsame]
  · simp [bg_handleSwitchChainResponse]
  · simp only [bg_handleSwitchChainResponse, bne_self_eq_false, Bool.false_eq_true,
      if_false, if_true]
    exact countP_chainChanged_flatMap _ p.id p.chainId

/-- Witness for the amended C6 at concrete states and requests. -/
theorem switch_chain_corrected_behavior_witness :
    bg_handleSwitchChainRequest exState none "0x89" "https://dapp.example" 9 0
      = ⟨.chainIdOnly "0x89", none, none⟩ :=
  (switch_chain_corrected_behavior exState none "https://dapp.example" "0x89" 9 0
    ⟨false, false, [], none, none, none, false⟩ exProviderState exPendingChain [exTabA]
    (by decide) (by decide) (by decide) (by decide)).1

end CrossNet
